import Mathlib

/-!
# Verification of the CSharpMSILZ80 compiler core

Shallow embedding of the Python sources of the MSIL → Game Boy (LR35902)
compiler, together with proofs settling the frozen claims about its
specification.  Python `bytes`/`bytearray` values are modelled as `List Nat`
(each entry a byte value), Python unbounded `int` as `Nat` or `Int` as the
sign discipline of the source requires, `& 0xFF` as `% 256`, `>> 8` on
non-negative values as `/ 256`, and Python exceptions as `Except String`.
-/

namespace MsilZ80

/-! ## models/gb_instruction.py -/

/-- An operand of a `GBInstruction`: the Python source stores either an
`int` or a `bytes` value in the `operands` list. -/
inductive GBOperand where
  | intOp (v : Nat)
  | bytesOp (bs : List Nat)
  deriving DecidableEq, Repr

/-- `GBInstruction` from `models/gb_instruction.py`. -/
structure GBInstruction where
  opcode : Nat
  mnemonic : String
  operands : List GBOperand
  size : Nat := 1
  cycles : Nat := 4
  deriving DecidableEq, Repr

/-- `GBInstruction.encode`: start from the opcode byte, then append each
operand; an integer operand contributes one byte when `≤ 0xFF` and two
little-endian bytes otherwise, a bytes operand is appended verbatim. -/
def GBInstruction.encode (inst : GBInstruction) : List Nat :=
  inst.operands.foldl
    (fun result op =>
      match op with
      | .intOp v => if v ≤ 0xFF then result ++ [v] else result ++ [v % 256, (v / 256) % 256]
      | .bytesOp bs => result ++ bs)
    [inst.opcode]

/-- The per-operand byte contribution of `GBInstruction.encode`, used to
state its shape claim. -/
def operandBytes : GBOperand → List Nat
  | .intOp v => if v ≤ 0xFF then [v] else [v % 256, (v / 256) % 256]
  | .bytesOp bs => bs

/-! ## models/ir.py

Only the fields the compiler core reads are carried; the `Any`-typed slots
(`return_type`, `parameters`, `local_variables`, plus `IrType` and the
`types`/`constants` maps, which no code under verification inspects) are
omitted.  Python `dict`s that are only built by insertion and iterated in
insertion order are modelled as association lists. -/

/-- `IrInstruction`: the decoder stores the canonical opcode name, the
literal operands, and `metadata['raw_opcode']`. -/
structure IrInstruction where
  opcode : String
  operands : List Int
  raw_opcode : Nat
  deriving DecidableEq, Repr

/-- `IrBasicBlock` from `models/ir.py`. -/
structure IrBasicBlock where
  label : String
  instructions : List IrInstruction := []
  successors : List String := []
  predecessors : List String := []
  deriving DecidableEq, Repr

/-- `IrMethod` from `models/ir.py`. -/
structure IrMethod where
  name : String
  full_name : String
  basic_blocks : List IrBasicBlock := []
  is_static : Bool := true
  is_entry_point : Bool := false
  deriving DecidableEq, Repr

/-- `IrModule` from `models/ir.py` (`methods` keyed by full name,
insertion-ordered). -/
structure IrModule where
  name : String
  methods : List (String × IrMethod) := []
  entry_point : Option String := none
  deriving DecidableEq, Repr

/-! ## services/ir_builder.py — the IL decoder -/

/-- The `MSIL_OPCODES` table of `services/ir_builder.py`: single-byte key to
canonical name. -/
def msilOpcodeName : Nat → Option String
  | 0x00 => some "nop"
  | 0x01 => some "break"
  | 0x02 => some "ldarg.0"
  | 0x03 => some "ldarg.1"
  | 0x04 => some "ldarg.2"
  | 0x05 => some "ldarg.3"
  | 0x06 => some "ldloc.0"
  | 0x07 => some "ldloc.1"
  | 0x08 => some "ldloc.2"
  | 0x09 => some "ldloc.3"
  | 0x0A => some "stloc.0"
  | 0x0B => some "stloc.1"
  | 0x0C => some "stloc.2"
  | 0x0D => some "stloc.3"
  | 0x0E => some "ldarg.s"
  | 0x0F => some "ldarga.s"
  | 0x10 => some "starg.s"
  | 0x11 => some "ldloc.s"
  | 0x12 => some "ldloca.s"
  | 0x13 => some "stloc.s"
  | 0x14 => some "ldnull"
  | 0x15 => some "ldc.i4.m1"
  | 0x16 => some "ldc.i4.0"
  | 0x17 => some "ldc.i4.1"
  | 0x18 => some "ldc.i4.2"
  | 0x19 => some "ldc.i4.3"
  | 0x1A => some "ldc.i4.4"
  | 0x1B => some "ldc.i4.5"
  | 0x1C => some "ldc.i4.6"
  | 0x1D => some "ldc.i4.7"
  | 0x1E => some "ldc.i4.8"
  | 0x1F => some "ldc.i4.s"
  | 0x20 => some "ldc.i4"
  | 0x21 => some "ldc.i8"
  | 0x22 => some "ldc.r4"
  | 0x23 => some "ldc.r8"
  | 0x25 => some "dup"
  | 0x26 => some "pop"
  | 0x27 => some "jmp"
  | 0x28 => some "call"
  | 0x29 => some "calli"
  | 0x2A => some "ret"
  | 0x2B => some "br.s"
  | 0x2C => some "brfalse.s"
  | 0x2D => some "brtrue.s"
  | 0x2E => some "beq.s"
  | 0x2F => some "bge.s"
  | 0x30 => some "bgt.s"
  | 0x31 => some "ble.s"
  | 0x32 => some "blt.s"
  | 0x38 => some "br"
  | 0x39 => some "brfalse"
  | 0x3A => some "brtrue"
  | 0x58 => some "add"
  | 0x59 => some "sub"
  | 0x5A => some "mul"
  | 0x5B => some "div"
  | 0x5F => some "and"
  | 0x60 => some "or"
  | 0x61 => some "xor"
  | 0x62 => some "shl"
  | 0x63 => some "shr"
  | 0x6F => some "callvirt"
  | 0x72 => some "ldstr"
  | 0x73 => some "newobj"
  | 0x7B => some "ldfld"
  | 0x7C => some "ldflda"
  | 0x7D => some "stfld"
  | 0x7E => some "ldsfld"
  | 0x7F => some "ldsflda"
  | 0x80 => some "stsfld"
  | 0x8C => some "box"
  | 0x8D => some "newarr"
  | 0x8E => some "ldlen"
  | 0x8F => some "ldelema"
  | 0x90 => some "ldelem.i1"
  | 0x91 => some "ldelem.u1"
  | 0x92 => some "ldelem.i2"
  | 0x93 => some "ldelem.u2"
  | 0x94 => some "ldelem.i4"
  | 0x95 => some "ldelem.u4"
  | 0x96 => some "ldelem.i8"
  | 0x97 => some "ldelem.i"
  | 0x98 => some "ldelem.r4"
  | 0x99 => some "ldelem.r8"
  | 0x9A => some "ldelem.ref"
  | 0x9C => some "stelem.i1"
  | 0x9D => some "stelem.i2"
  | 0x9E => some "stelem.i4"
  | 0x9F => some "stelem.i8"
  | 0xA0 => some "stelem.r4"
  | 0xA1 => some "stelem.r8"
  | 0xA2 => some "stelem.ref"
  | 0xD0 => some "ldtoken"
  | 0xD1 => some "conv.u2"
  | 0xD2 => some "conv.u1"
  | 0xD3 => some "conv.i"
  | _ => none

/-- Python `f'{n:02x}'`: lowercase hexadecimal, zero-padded to width 2. -/
def pyHex02 (n : Nat) : String :=
  let s := Nat.toDigits 16 n
  String.mk (if s.length < 2 then List.replicate (2 - s.length) '0' ++ s else s)

/-- Canonical name `unknown_<hex>` given to opcodes whose low-byte table
lookup misses. -/
def unknownName (op : Nat) : String := "unknown_" ++ pyHex02 op

/-- `MSIL_OPCODES.get(opcode & 0xFF, f'unknown_{opcode:02x}')`: note the
lookup key is the low byte of the (possibly 16-bit) opcode. -/
def opcodeLookup (op : Nat) : String :=
  (msilOpcodeName (op % 256)).getD (unknownName op)

/-- Names drawing a 1-byte unsigned operand (line 193 of
`services/ir_builder.py`). -/
def shortOperandNames : List String :=
  ["ldc.i4.s", "ldarg.s", "ldloc.s", "stloc.s", "starg.s"]

/-- Names drawing a 4-byte little-endian operand (lines 198–200). -/
def intOperandNames : List String :=
  ["ldc.i4", "br", "brfalse", "brtrue", "call", "callvirt",
   "newobj", "ldfld", "stfld", "ldsfld", "stsfld", "ldstr",
   "newarr", "ldtoken"]

/-- Names drawing a 1-byte signed branch displacement (lines 209–210). -/
def branchOperandNames : List String :=
  ["br.s", "brfalse.s", "brtrue.s", "beq.s", "bge.s",
   "bgt.s", "ble.s", "blt.s"]

/-- Operand reading of `_parse_il_body`: consume operand bytes for the named
opcode from the remaining stream, with the source's bounds checks (a missing
1-byte operand is skipped; a partial 4-byte operand leaves the stream
untouched so its bytes are re-decoded as opcodes). -/
def readOperands (name : String) (rest : List Nat) : List Int × List Nat :=
  if name ∈ shortOperandNames then
    match rest with
    | c :: r => ([(c : Int)], r)
    | [] => ([], [])
  else if name ∈ intOperandNames then
    match rest with
    | a :: b :: c :: d :: r =>
        ([((a ||| (b <<< 8) ||| (c <<< 16) ||| (d <<< 24) : Nat) : Int)], r)
    | _ => ([], rest)
  else if name ∈ branchOperandNames then
    match rest with
    | c :: r => ([if 127 < c then (c : Int) - 256 else (c : Int)], r)
    | [] => ([], [])
  else ([], rest)

/-- Decoding loop of `_parse_il_body`, fuel-indexed for structural
recursion; each iteration consumes at least the opcode byte, so fuel equal
to the stream length is always enough (`decodeIl`). -/
def decodeAux : Nat → List Nat → List IrInstruction
  | 0, _ => []
  | _ + 1, [] => []
  | fuel + 1, b :: rest =>
    if b = 0xFE then
      match rest with
      | [] => [⟨opcodeLookup 0xFE, [], 0xFE⟩]
      | b2 :: rest2 =>
        let op := 0xFE00 ||| b2
        let name := opcodeLookup op
        let pr := readOperands name rest2
        ⟨name, pr.1, op⟩ :: decodeAux fuel pr.2
    else
      let name := opcodeLookup b
      let pr := readOperands name rest
      ⟨name, pr.1, b⟩ :: decodeAux fuel pr.2

/-- `_parse_il_body`'s instruction stream for a raw IL body. -/
def decodeIl (il : List Nat) : List IrInstruction := decodeAux il.length il

/-! ## services/msil_reader.py — `get_method_body`

The dnfile plumbing (`get_offset_from_rva`, `__data__`) is abstracted as the
resolved body offset and the raw file bytes.  Any Python exception inside
the method (e.g. an out-of-range byte access) is caught by its blanket
`except` clause and converted to `None`, hence the bounds guards below. -/

/-- `MsilReader.get_method_body`: tiny headers (`low bits 0b10`) carry the
code size in the upper six bits, fat headers (`0b11`) read a 32-bit
little-endian code size from bytes 4..7; any other low-bit pattern falls
through and returns `none`. -/
def getMethodBody (rva : Nat) (bodyOffset : Nat) (data : List Nat) : Option (List Nat) :=
  if rva ≠ 0 then
    if bodyOffset < data.length then
      let headerByte := data.getD bodyOffset 0
      if headerByte % 4 = 2 then
        let codeSize := headerByte / 4
        some ((data.drop (bodyOffset + 1)).take codeSize)
      else if headerByte % 4 = 3 then
        if bodyOffset + 7 < data.length then
          let codeSize :=
            (data.getD (bodyOffset + 4) 0) ||| ((data.getD (bodyOffset + 5) 0) <<< 8) |||
            ((data.getD (bodyOffset + 6) 0) <<< 16) ||| ((data.getD (bodyOffset + 7) 0) <<< 24)
          some ((data.drop (bodyOffset + 12)).take codeSize)
        else none
      else none
    else none
  else none

/-! ## codegen/instruction_emitter.py -/

/-- `InstructionEmitter` state: emitted chunks, the label table, and the
pending `(label, patch-position)` references. -/
structure EmitterState where
  code : List (List Nat) := []
  labels : List (String × Nat) := []
  label_refs : List (String × Nat) := []
  deriving DecidableEq, Repr

/-- `get_position`: sum of the chunk lengths. -/
def EmitterState.get_position (st : EmitterState) : Nat :=
  (st.code.map List.length).sum

/-- `emit`/`emit_bytes`: append a chunk (the returned position is unused by
the callers under verification). -/
def EmitterState.emitChunk (st : EmitterState) (chunk : List Nat) : EmitterState :=
  { st with code := st.code ++ [chunk] }

/-- `define_label`: record the current position under `name`. -/
def EmitterState.define_label (st : EmitterState) (name : String) : EmitterState :=
  { st with labels := st.labels ++ [(name, st.get_position)] }

/-- Label-table lookup (`self.labels` is a Python dict keyed by name). -/
def lookupLabel (labels : List (String × Nat)) (name : String) : Option Nat :=
  (labels.find? (fun p => p.1 == name)).map (·.2)

/-- The patch loop of `resolve_labels`: a reference whose label is undefined
is skipped; a defined target is patched at `pos` with
`(target - (pos + 1)) & 0xFF` when that displacement lies in `[-128, 127]`,
and otherwise raises `ValueError` (out-of-range relocation).  A patch
position beyond the buffer would raise `IndexError` in Python. -/
def patchRefs (labels : List (String × Nat)) :
    List Nat → List (String × Nat) → Except String (List Nat)
  | result, [] => .ok result
  | result, (name, pos) :: rest =>
    match lookupLabel labels name with
    | none => patchRefs labels result rest
    | some target =>
      let offset : Int := (target : Int) - ((pos : Int) + 1)
      if -128 ≤ offset ∧ offset ≤ 127 then
        if pos < result.length then
          patchRefs labels (result.set pos (offset % 256).toNat) rest
        else .error "IndexError"
      else .error ("Label " ++ name ++ " too far for relative jump")

/-- `resolve_labels` (= `get_code`): flatten the chunks, then run the patch
loop over every pending reference. -/
def EmitterState.resolve_labels (st : EmitterState) : Except String (List Nat) :=
  patchRefs st.labels st.code.flatten st.label_refs

/-! ## codegen/lr35902_opcodes.py -/

/-- The `OPCODES` dict: opcode byte to `(mnemonic, size, cycles)`. -/
def OPCODES : List (Nat × (String × Nat × Nat)) :=
  [
   (0x00, ("NOP", 1, 4)),
   (0x06, ("LD B, d8", 2, 8)),
   (0x0E, ("LD C, d8", 2, 8)),
   (0x16, ("LD D, d8", 2, 8)),
   (0x1E, ("LD E, d8", 2, 8)),
   (0x26, ("LD H, d8", 2, 8)),
   (0x2E, ("LD L, d8", 2, 8)),
   (0x3E, ("LD A, d8", 2, 8)),
   (0x01, ("LD BC, d16", 3, 12)),
   (0x11, ("LD DE, d16", 3, 12)),
   (0x21, ("LD HL, d16", 3, 12)),
   (0x31, ("LD SP, d16", 3, 12)),
   (0x02, ("LD (BC), A", 1, 8)),
   (0x12, ("LD (DE), A", 1, 8)),
   (0x22, ("LD (HL+), A", 1, 8)),
   (0x32, ("LD (HL-), A", 1, 8)),
   (0x0A, ("LD A, (BC)", 1, 8)),
   (0x1A, ("LD A, (DE)", 1, 8)),
   (0x2A, ("LD A, (HL+)", 1, 8)),
   (0x3A, ("LD A, (HL-)", 1, 8)),
   (0x40, ("LD B, B", 1, 4)),
   (0x41, ("LD B, C", 1, 4)),
   (0x42, ("LD B, D", 1, 4)),
   (0x43, ("LD B, E", 1, 4)),
   (0x44, ("LD B, H", 1, 4)),
   (0x45, ("LD B, L", 1, 4)),
   (0x46, ("LD B, (HL)", 1, 8)),
   (0x47, ("LD B, A", 1, 4)),
   (0x48, ("LD C, B", 1, 4)),
   (0x49, ("LD C, C", 1, 4)),
   (0x4A, ("LD C, D", 1, 4)),
   (0x4B, ("LD C, E", 1, 4)),
   (0x4C, ("LD C, H", 1, 4)),
   (0x4D, ("LD C, L", 1, 4)),
   (0x4E, ("LD C, (HL)", 1, 8)),
   (0x4F, ("LD C, A", 1, 4)),
   (0x50, ("LD D, B", 1, 4)),
   (0x51, ("LD D, C", 1, 4)),
   (0x52, ("LD D, D", 1, 4)),
   (0x53, ("LD D, E", 1, 4)),
   (0x54, ("LD D, H", 1, 4)),
   (0x55, ("LD D, L", 1, 4)),
   (0x56, ("LD D, (HL)", 1, 8)),
   (0x57, ("LD D, A", 1, 4)),
   (0x58, ("LD E, B", 1, 4)),
   (0x59, ("LD E, C", 1, 4)),
   (0x5A, ("LD E, D", 1, 4)),
   (0x5B, ("LD E, E", 1, 4)),
   (0x5C, ("LD E, H", 1, 4)),
   (0x5D, ("LD E, L", 1, 4)),
   (0x5E, ("LD E, (HL)", 1, 8)),
   (0x5F, ("LD E, A", 1, 4)),
   (0x60, ("LD H, B", 1, 4)),
   (0x61, ("LD H, C", 1, 4)),
   (0x62, ("LD H, D", 1, 4)),
   (0x63, ("LD H, E", 1, 4)),
   (0x64, ("LD H, H", 1, 4)),
   (0x65, ("LD H, L", 1, 4)),
   (0x66, ("LD H, (HL)", 1, 8)),
   (0x67, ("LD H, A", 1, 4)),
   (0x68, ("LD L, B", 1, 4)),
   (0x69, ("LD L, C", 1, 4)),
   (0x6A, ("LD L, D", 1, 4)),
   (0x6B, ("LD L, E", 1, 4)),
   (0x6C, ("LD L, H", 1, 4)),
   (0x6D, ("LD L, L", 1, 4)),
   (0x6E, ("LD L, (HL)", 1, 8)),
   (0x6F, ("LD L, A", 1, 4)),
   (0x70, ("LD (HL), B", 1, 8)),
   (0x71, ("LD (HL), C", 1, 8)),
   (0x72, ("LD (HL), D", 1, 8)),
   (0x73, ("LD (HL), E", 1, 8)),
   (0x74, ("LD (HL), H", 1, 8)),
   (0x75, ("LD (HL), L", 1, 8)),
   (0x76, ("HALT", 1, 4)),
   (0x77, ("LD (HL), A", 1, 8)),
   (0x78, ("LD A, B", 1, 4)),
   (0x79, ("LD A, C", 1, 4)),
   (0x7A, ("LD A, D", 1, 4)),
   (0x7B, ("LD A, E", 1, 4)),
   (0x7C, ("LD A, H", 1, 4)),
   (0x7D, ("LD A, L", 1, 4)),
   (0x7E, ("LD A, (HL)", 1, 8)),
   (0x7F, ("LD A, A", 1, 4)),
   (0xE0, ("LDH (a8), A", 2, 12)),
   (0xF0, ("LDH A, (a8)", 2, 12)),
   (0xEA, ("LD (a16), A", 3, 16)),
   (0xFA, ("LD A, (a16)", 3, 16)),
   (0xC5, ("PUSH BC", 1, 16)),
   (0xD5, ("PUSH DE", 1, 16)),
   (0xE5, ("PUSH HL", 1, 16)),
   (0xF5, ("PUSH AF", 1, 16)),
   (0xC1, ("POP BC", 1, 12)),
   (0xD1, ("POP DE", 1, 12)),
   (0xE1, ("POP HL", 1, 12)),
   (0xF1, ("POP AF", 1, 12)),
   (0x04, ("INC B", 1, 4)),
   (0x0C, ("INC C", 1, 4)),
   (0x14, ("INC D", 1, 4)),
   (0x1C, ("INC E", 1, 4)),
   (0x24, ("INC H", 1, 4)),
   (0x2C, ("INC L", 1, 4)),
   (0x34, ("INC (HL)", 1, 12)),
   (0x3C, ("INC A", 1, 4)),
   (0x05, ("DEC B", 1, 4)),
   (0x0D, ("DEC C", 1, 4)),
   (0x15, ("DEC D", 1, 4)),
   (0x1D, ("DEC E", 1, 4)),
   (0x25, ("DEC H", 1, 4)),
   (0x2D, ("DEC L", 1, 4)),
   (0x35, ("DEC (HL)", 1, 12)),
   (0x3D, ("DEC A", 1, 4)),
   (0x03, ("INC BC", 1, 8)),
   (0x13, ("INC DE", 1, 8)),
   (0x23, ("INC HL", 1, 8)),
   (0x33, ("INC SP", 1, 8)),
   (0x0B, ("DEC BC", 1, 8)),
   (0x1B, ("DEC DE", 1, 8)),
   (0x2B, ("DEC HL", 1, 8)),
   (0x3B, ("DEC SP", 1, 8)),
   (0x80, ("ADD A, B", 1, 4)),
   (0x81, ("ADD A, C", 1, 4)),
   (0x82, ("ADD A, D", 1, 4)),
   (0x83, ("ADD A, E", 1, 4)),
   (0x84, ("ADD A, H", 1, 4)),
   (0x85, ("ADD A, L", 1, 4)),
   (0x86, ("ADD A, (HL)", 1, 8)),
   (0x87, ("ADD A, A", 1, 4)),
   (0xC6, ("ADD A, d8", 2, 8)),
   (0x88, ("ADC A, B", 1, 4)),
   (0x89, ("ADC A, C", 1, 4)),
   (0x8A, ("ADC A, D", 1, 4)),
   (0x8B, ("ADC A, E", 1, 4)),
   (0x8C, ("ADC A, H", 1, 4)),
   (0x8D, ("ADC A, L", 1, 4)),
   (0x8E, ("ADC A, (HL)", 1, 8)),
   (0x8F, ("ADC A, A", 1, 4)),
   (0xCE, ("ADC A, d8", 2, 8)),
   (0x90, ("SUB B", 1, 4)),
   (0x91, ("SUB C", 1, 4)),
   (0x92, ("SUB D", 1, 4)),
   (0x93, ("SUB E", 1, 4)),
   (0x94, ("SUB H", 1, 4)),
   (0x95, ("SUB L", 1, 4)),
   (0x96, ("SUB (HL)", 1, 8)),
   (0x97, ("SUB A", 1, 4)),
   (0xD6, ("SUB d8", 2, 8)),
   (0x98, ("SBC A, B", 1, 4)),
   (0x99, ("SBC A, C", 1, 4)),
   (0x9A, ("SBC A, D", 1, 4)),
   (0x9B, ("SBC A, E", 1, 4)),
   (0x9C, ("SBC A, H", 1, 4)),
   (0x9D, ("SBC A, L", 1, 4)),
   (0x9E, ("SBC A, (HL)", 1, 8)),
   (0x9F, ("SBC A, A", 1, 4)),
   (0xDE, ("SBC A, d8", 2, 8)),
   (0xA0, ("AND B", 1, 4)),
   (0xA1, ("AND C", 1, 4)),
   (0xA2, ("AND D", 1, 4)),
   (0xA3, ("AND E", 1, 4)),
   (0xA4, ("AND H", 1, 4)),
   (0xA5, ("AND L", 1, 4)),
   (0xA6, ("AND (HL)", 1, 8)),
   (0xA7, ("AND A", 1, 4)),
   (0xE6, ("AND d8", 2, 8)),
   (0xA8, ("XOR B", 1, 4)),
   (0xA9, ("XOR C", 1, 4)),
   (0xAA, ("XOR D", 1, 4)),
   (0xAB, ("XOR E", 1, 4)),
   (0xAC, ("XOR H", 1, 4)),
   (0xAD, ("XOR L", 1, 4)),
   (0xAE, ("XOR (HL)", 1, 8)),
   (0xAF, ("XOR A", 1, 4)),
   (0xEE, ("XOR d8", 2, 8)),
   (0xB0, ("OR B", 1, 4)),
   (0xB1, ("OR C", 1, 4)),
   (0xB2, ("OR D", 1, 4)),
   (0xB3, ("OR E", 1, 4)),
   (0xB4, ("OR H", 1, 4)),
   (0xB5, ("OR L", 1, 4)),
   (0xB6, ("OR (HL)", 1, 8)),
   (0xB7, ("OR A", 1, 4)),
   (0xF6, ("OR d8", 2, 8)),
   (0xB8, ("CP B", 1, 4)),
   (0xB9, ("CP C", 1, 4)),
   (0xBA, ("CP D", 1, 4)),
   (0xBB, ("CP E", 1, 4)),
   (0xBC, ("CP H", 1, 4)),
   (0xBD, ("CP L", 1, 4)),
   (0xBE, ("CP (HL)", 1, 8)),
   (0xBF, ("CP A", 1, 4)),
   (0xFE, ("CP d8", 2, 8)),
   (0x09, ("ADD HL, BC", 1, 8)),
   (0x19, ("ADD HL, DE", 1, 8)),
   (0x29, ("ADD HL, HL", 1, 8)),
   (0x39, ("ADD HL, SP", 1, 8)),
   (0xE8, ("ADD SP, r8", 2, 16)),
   (0xC3, ("JP a16", 3, 16)),
   (0xC2, ("JP NZ, a16", 3, 12)),
   (0xCA, ("JP Z, a16", 3, 12)),
   (0xD2, ("JP NC, a16", 3, 12)),
   (0xDA, ("JP C, a16", 3, 12)),
   (0xE9, ("JP (HL)", 1, 4)),
   (0x18, ("JR r8", 2, 12)),
   (0x20, ("JR NZ, r8", 2, 8)),
   (0x28, ("JR Z, r8", 2, 8)),
   (0x30, ("JR NC, r8", 2, 8)),
   (0x38, ("JR C, r8", 2, 8)),
   (0xCD, ("CALL a16", 3, 24)),
   (0xC4, ("CALL NZ, a16", 3, 12)),
   (0xCC, ("CALL Z, a16", 3, 12)),
   (0xD4, ("CALL NC, a16", 3, 12)),
   (0xDC, ("CALL C, a16", 3, 12)),
   (0xC9, ("RET", 1, 16)),
   (0xC0, ("RET NZ", 1, 8)),
   (0xC8, ("RET Z", 1, 8)),
   (0xD0, ("RET NC", 1, 8)),
   (0xD8, ("RET C", 1, 8)),
   (0xC7, ("RST 00H", 1, 16)),
   (0xCF, ("RST 08H", 1, 16)),
   (0xD7, ("RST 10H", 1, 16)),
   (0xDF, ("RST 18H", 1, 16)),
   (0xE7, ("RST 20H", 1, 16)),
   (0xEF, ("RST 28H", 1, 16)),
   (0xF7, ("RST 30H", 1, 16)),
   (0xFF, ("RST 38H", 1, 16)),
   (0x07, ("RLCA", 1, 4)),
   (0x17, ("RLA", 1, 4)),
   (0x0F, ("RRCA", 1, 4)),
   (0x1F, ("RRA", 1, 4)),
   (0x27, ("DAA", 1, 4)),
   (0x2F, ("CPL", 1, 4)),
   (0x37, ("SCF", 1, 4)),
   (0x3F, ("CCF", 1, 4)),
   (0xF3, ("DI", 1, 4)),
   (0xFB, ("EI", 1, 4)),
   (0x10, ("STOP", 2, 4)),
   (0xCB, ("PREFIX CB", 1, 4))
  ]

/-- `get_opcode_info`: dict lookup in `OPCODES`. -/
def get_opcode_info (opcode : Nat) : Option (String × Nat × Nat) :=
  OPCODES.lookup opcode

/-- `create_instruction`: table lookup, raising `ValueError` for an opcode
without a table entry. -/
def create_instruction (opcode : Nat) (operands : List GBOperand := []) :
    Except String GBInstruction :=
  match get_opcode_info opcode with
  | none => .error ("Unknown opcode: 0x" ++ pyHex02 opcode)
  | some (mnemonic, size, cycles) =>
    .ok { opcode := opcode, mnemonic := mnemonic, operands := operands,
          size := size, cycles := cycles }


/-! ## services/code_generator.py -/

/-- Memory layout constants of `CodeGenerator`. -/
def CODE_START : Nat := 0x0150

/-- Initial stack pointer loaded by the startup stub. -/
def STACK_START : Nat := 0xFFFE

/-- Font tiles for Hello World (A–Z plus space), 27 tiles of 16 bytes. -/
def FONT_TILES : List Nat :=
  [
   0x18, 0x18, 0x24, 0x24, 0x42, 0x42, 0x7E, 0x7E,
   0x42, 0x42, 0x42, 0x42, 0x42, 0x42, 0x00, 0x00,
   0x7C, 0x7C, 0x42, 0x42, 0x7C, 0x7C, 0x42, 0x42,
   0x42, 0x42, 0x42, 0x42, 0x7C, 0x7C, 0x00, 0x00,
   0x3C, 0x3C, 0x42, 0x42, 0x40, 0x40, 0x40, 0x40,
   0x40, 0x40, 0x42, 0x42, 0x3C, 0x3C, 0x00, 0x00,
   0x78, 0x78, 0x44, 0x44, 0x42, 0x42, 0x42, 0x42,
   0x42, 0x42, 0x44, 0x44, 0x78, 0x78, 0x00, 0x00,
   0x7E, 0x7E, 0x40, 0x40, 0x7C, 0x7C, 0x40, 0x40,
   0x40, 0x40, 0x40, 0x40, 0x7E, 0x7E, 0x00, 0x00,
   0x7E, 0x7E, 0x40, 0x40, 0x7C, 0x7C, 0x40, 0x40,
   0x40, 0x40, 0x40, 0x40, 0x40, 0x40, 0x00, 0x00,
   0x3C, 0x3C, 0x42, 0x42, 0x40, 0x40, 0x4E, 0x4E,
   0x42, 0x42, 0x42, 0x42, 0x3C, 0x3C, 0x00, 0x00,
   0x42, 0x42, 0x42, 0x42, 0x7E, 0x7E, 0x42, 0x42,
   0x42, 0x42, 0x42, 0x42, 0x42, 0x42, 0x00, 0x00,
   0x3E, 0x3E, 0x08, 0x08, 0x08, 0x08, 0x08, 0x08,
   0x08, 0x08, 0x08, 0x08, 0x3E, 0x3E, 0x00, 0x00,
   0x1F, 0x1F, 0x04, 0x04, 0x04, 0x04, 0x04, 0x04,
   0x44, 0x44, 0x44, 0x44, 0x38, 0x38, 0x00, 0x00,
   0x42, 0x42, 0x44, 0x44, 0x48, 0x48, 0x70, 0x70,
   0x48, 0x48, 0x44, 0x44, 0x42, 0x42, 0x00, 0x00,
   0x40, 0x40, 0x40, 0x40, 0x40, 0x40, 0x40, 0x40,
   0x40, 0x40, 0x40, 0x40, 0x7E, 0x7E, 0x00, 0x00,
   0x42, 0x42, 0x66, 0x66, 0x5A, 0x5A, 0x42, 0x42,
   0x42, 0x42, 0x42, 0x42, 0x42, 0x42, 0x00, 0x00,
   0x42, 0x42, 0x62, 0x62, 0x52, 0x52, 0x4A, 0x4A,
   0x46, 0x46, 0x42, 0x42, 0x42, 0x42, 0x00, 0x00,
   0x3C, 0x3C, 0x42, 0x42, 0x42, 0x42, 0x42, 0x42,
   0x42, 0x42, 0x42, 0x42, 0x3C, 0x3C, 0x00, 0x00,
   0x7C, 0x7C, 0x42, 0x42, 0x42, 0x42, 0x7C, 0x7C,
   0x40, 0x40, 0x40, 0x40, 0x40, 0x40, 0x00, 0x00,
   0x3C, 0x3C, 0x42, 0x42, 0x42, 0x42, 0x42, 0x42,
   0x4A, 0x4A, 0x44, 0x44, 0x3A, 0x3A, 0x00, 0x00,
   0x7C, 0x7C, 0x42, 0x42, 0x42, 0x42, 0x7C, 0x7C,
   0x48, 0x48, 0x44, 0x44, 0x42, 0x42, 0x00, 0x00,
   0x3C, 0x3C, 0x42, 0x42, 0x40, 0x40, 0x3C, 0x3C,
   0x02, 0x02, 0x42, 0x42, 0x3C, 0x3C, 0x00, 0x00,
   0x7F, 0x7F, 0x08, 0x08, 0x08, 0x08, 0x08, 0x08,
   0x08, 0x08, 0x08, 0x08, 0x08, 0x08, 0x00, 0x00,
   0x42, 0x42, 0x42, 0x42, 0x42, 0x42, 0x42, 0x42,
   0x42, 0x42, 0x42, 0x42, 0x3C, 0x3C, 0x00, 0x00,
   0x42, 0x42, 0x42, 0x42, 0x42, 0x42, 0x42, 0x42,
   0x24, 0x24, 0x24, 0x24, 0x18, 0x18, 0x00, 0x00,
   0x42, 0x42, 0x42, 0x42, 0x42, 0x42, 0x5A, 0x5A,
   0x5A, 0x5A, 0x66, 0x66, 0x42, 0x42, 0x00, 0x00,
   0x42, 0x42, 0x24, 0x24, 0x18, 0x18, 0x18, 0x18,
   0x18, 0x18, 0x24, 0x24, 0x42, 0x42, 0x00, 0x00,
   0x41, 0x41, 0x22, 0x22, 0x14, 0x14, 0x08, 0x08,
   0x08, 0x08, 0x08, 0x08, 0x08, 0x08, 0x00, 0x00,
   0x7E, 0x7E, 0x04, 0x04, 0x08, 0x08, 0x10, 0x10,
   0x20, 0x20, 0x40, 0x40, 0x7E, 0x7E, 0x00, 0x00,
   0x00, 0x00, 0x00, 0x00, 0x00, 0x00, 0x00, 0x00,
   0x00, 0x00, 0x00, 0x00, 0x00, 0x00, 0x00, 0x00
  ]

/-- Character-list prefix test (for Python's `in` substring operator). -/
def charsStartWith : List Char → List Char → Bool
  | [], _ => true
  | _ :: _, [] => false
  | a :: as, b :: bs => a == b && charsStartWith as bs

/-- Python's `needle in hay` on strings: the needle occurs contiguously. -/
def containsSub (needle : List Char) : List Char → Bool
  | [] => charsStartWith needle []
  | c :: rest => charsStartWith needle (c :: rest) || containsSub needle rest

/-- Python's per-character `str.lower()`. -/
def pyLower (s : String) : String := String.mk (s.data.map Char.toLower)

/-- Inner scan of `_detect_hello_world`: any instruction whose lowercased
opcode contains the substring `call` (the scan's outcome does not change the
detection result, since both branches assume Hello World). -/
def scanForCall (m : IrMethod) : Bool :=
  m.basic_blocks.any fun b =>
    b.instructions.any fun i => containsSub "call".data (pyLower i.opcode).data

/-- `_detect_hello_world`: walk the methods in order; the first one that is
an entry point or is named `Main` decides — and decides `true` whether or
not the call-scan hits, because the source falls through to "If Main exists,
assume Hello World". -/
def detect_hello_world : List (String × IrMethod) → Bool
  | [] => false
  | (_, m) :: rest =>
    if m.is_entry_point || m.name == "Main" then
      (if scanForCall m then true else true)
    else detect_hello_world rest

/-- `_generate_hello_world`: the fixed pre-baked machine-code sequence
(VBlank wait, LCD off, font copy to VRAM at `0x8000`, tile-map fill with the
space tile, the HELLO WORLD tile indices written at row 8 column 5, palette,
LCD on, halt loop), zero-padded out to offset 200 where the font tile data
follows.  It depends on nothing in the IR module. -/
def generate_hello_world : List Nat :=
  let message : List Nat := [7, 4, 11, 11, 14, 26, 22, 14, 17, 11, 3]
  let font_data_addr := CODE_START + 200
  let font_length := FONT_TILES.length
  let map_addr := 0x9800 + (8 * 32) + 5
  let code :=
    [0xF0, 0x44, 0xFE, 144, 0x20, 0xFA,
     0x3E, 0x00, 0xE0, 0x40,
     0x21, 0x00, 0x80,
     0x11, font_data_addr % 256, (font_data_addr / 256) % 256,
     0x01, font_length % 256, (font_length / 256) % 256,
     0x1A, 0x22, 0x13, 0x0B, 0x78, 0xB1, 0x20, 0xF8,
     0x21, 0x00, 0x98,
     0x3E, 26,
     0x01, 0x00, 0x04,
     0x22, 0x0B, 0x78, 0xB1, 0x3E, 26, 0x20, 0xF8,
     0x21, map_addr % 256, (map_addr / 256) % 256] ++
    (message.flatMap fun tile_idx => [0x3E, tile_idx, 0x22]) ++
    [0x3E, 0xE4, 0xE0, 0x47,
     0x3E, 0x91, 0xE0, 0x40,
     0x76, 0x18, 0xFD]
  let padded := code ++ List.replicate (font_data_addr - CODE_START - code.length) 0x00
  padded ++ FONT_TILES

/-- `_get_ldc_value`: the constant encoded in an `ldc.i4.*` opcode name, or
the first decoded operand for `ldc.i4.s` / `ldc.i4`. -/
def get_ldc_value (opcode : String) (operands : List Int) : Int :=
  if opcode = "ldc.i4.0" then 0
  else if opcode = "ldc.i4.1" then 1
  else if opcode = "ldc.i4.2" then 2
  else if opcode = "ldc.i4.3" then 3
  else if opcode = "ldc.i4.4" then 4
  else if opcode = "ldc.i4.5" then 5
  else if opcode = "ldc.i4.6" then 6
  else if opcode = "ldc.i4.7" then 7
  else if opcode = "ldc.i4.8" then 8
  else if opcode = "ldc.i4.m1" then -1
  else if (opcode = "ldc.i4.s" ∨ opcode = "ldc.i4") ∧ operands ≠ [] then
    operands.headD 0
  else 0

/-- Emit one machine instruction through `create_instruction` (Python would
propagate its `ValueError`). -/
def EmitterState.emitOp (st : EmitterState) (opcode : Nat)
    (operands : List GBOperand := []) : Except String EmitterState := do
  let inst ← create_instruction opcode operands
  pure (st.emitChunk inst.encode)

/-- `_load_immediate`: `LD HL, value` (little-endian bytes of the Python
`int`, via `& 0xFF` and `>> 8`, i.e. floor shift) then `PUSH HL`. -/
def load_immediate (st : EmitterState) (value : Int) : Except String EmitterState := do
  let st ← st.emitOp 0x21
    [.intOp (value % 256).toNat, .intOp ((value.fdiv 256) % 256).toNat]
  st.emitOp 0xE5

/-- `_generate_add`: `POP DE; POP HL; ADD HL, DE; PUSH HL`. -/
def generate_add (st : EmitterState) : Except String EmitterState := do
  let st ← st.emitOp 0xD1
  let st ← st.emitOp 0xE1
  let st ← st.emitOp 0x19
  st.emitOp 0xE5

/-- `_generate_sub`: 16-bit subtract via 8-bit `SUB`/`SBC`, then push. -/
def generate_sub (st : EmitterState) : Except String EmitterState := do
  let st ← st.emitOp 0xD1
  let st ← st.emitOp 0xE1
  let st ← st.emitOp 0x7D
  let st ← st.emitOp 0x93
  let st ← st.emitOp 0x6F
  let st ← st.emitOp 0x7C
  let st ← st.emitOp 0x9A
  let st ← st.emitOp 0x67
  st.emitOp 0xE5

/-- `_generate_instruction`: lower one IR instruction; anything not in the
supported set becomes a target no-op. -/
def generate_instruction (st : EmitterState) (ir_inst : IrInstruction) :
    Except String EmitterState :=
  let opcode := pyLower ir_inst.opcode
  if opcode = "nop" then st.emitOp 0x00
  else if opcode = "ret" then st.emitOp 0xC9
  else if charsStartWith "ldc.i4".data opcode.data then
    load_immediate st (get_ldc_value opcode ir_inst.operands)
  else if opcode = "add" then generate_add st
  else if opcode = "sub" then generate_sub st
  else st.emitOp 0x00

/-- `_generate_method`: label and lower each block, then an unconditional
trailing `RET` (the register allocator reset has no observable effect). -/
def generate_method (st : EmitterState) (method : IrMethod) :
    Except String EmitterState := do
  let st ← method.basic_blocks.foldlM
    (fun st block => do
      let st := st.define_label block.label
      block.instructions.foldlM (fun st i => generate_instruction st i) st)
    st
  st.emitOp 0xC9

/-- `_generate_startup`: `LD SP, 0xFFFE` then `DI`. -/
def generate_startup (st : EmitterState) : Except String EmitterState := do
  let st ← st.emitOp 0x31
    [.intOp (STACK_START % 256), .intOp ((STACK_START / 256) % 256)]
  st.emitOp 0xF3

/-- `_generate_generic`: startup stub, every method in order (recording its
offset), then an absolute `JP` to the entry point's recorded address, and
finally `get_code` (label resolution). -/
def generate_generic (ir_module : IrModule) : Except String (List Nat) := do
  let st ← generate_startup {}
  let (method_addresses, st) ← ir_module.methods.foldlM
    (fun (acc : List (String × Nat) × EmitterState) p => do
      let (addrs, st) := acc
      let addrs := addrs ++ [(p.1, st.get_position)]
      let st ← generate_method st p.2
      pure (addrs, st))
    ([], st)
  let st ← match ir_module.entry_point with
    | some ep =>
      let entry_addr := ((method_addresses.lookup ep).getD CODE_START)
      st.emitOp 0xC3 [.intOp (entry_addr % 256), .intOp ((entry_addr / 256) % 256)]
    | none => pure st
  st.resolve_labels

/-- `CodeGenerator.generate` on a fresh generator: the Hello World fast path
whenever `_detect_hello_world` fires, the generic path otherwise. -/
def generate (ir_module : IrModule) : Except String (List Nat) :=
  if detect_hello_world ir_module.methods then .ok generate_hello_world
  else generate_generic ir_module


/-! ## services/rom_builder.py

The driver (`main.py`) builds the ROM from config
`{title, cartridge_type, rom_size}`; `skip_runtime` is absent so its default
`True` applies and `final_code = code`. -/

/-- Minimum ROM size: 32 KiB. -/
def MIN_ROM_SIZE : Nat := 32 * 1024

/-- `_round_up_to_power_of_2`: the 32-bit or-shift smear (`n |= n >> 1`,
…, `n |= n >> 16`) on `n - 1`, plus one; non-positive input gives 1. -/
def round_up_to_power_of_2 (n : Nat) : Nat :=
  if n = 0 then 1
  else
    let m1 := (n - 1) ||| ((n - 1) >>> 1)
    let m2 := m1 ||| (m1 >>> 2)
    let m3 := m2 ||| (m2 >>> 4)
    let m4 := m3 ||| (m3 >>> 8)
    let m5 := m4 ||| (m4 >>> 16)
    m5 + 1

/-- The 48-byte Nintendo logo installed by `RomHeader.__post_init__`. -/
def nintendo_logo : List Nat :=
  [0xCE, 0xED, 0x66, 0x66, 0xCC, 0x0D, 0x00, 0x0B,
   0x03, 0x73, 0x00, 0x83, 0x00, 0x0C, 0x00, 0x0D,
   0x00, 0x08, 0x11, 0x1F, 0x88, 0x89, 0x00, 0x0E,
   0xDC, 0xCC, 0x6E, 0xE6, 0xDD, 0xDD, 0xD9, 0x99,
   0xBB, 0xBB, 0x67, 0x63, 0x6E, 0x0E, 0xEC, 0xCC,
   0xDD, 0xDC, 0x99, 0x9F, 0xBB, 0xB9, 0x33, 0x3E]

/-- `RomHeader` as constructed by `RomBuilder.build` from the config; every
field not in the config keeps its dataclass default. -/
structure RomHeader where
  title : String := "HELLO WORLD"
  cgb_flag : Nat := 0x00
  new_licensee_code : List Nat := [0x00, 0x00]
  sgb_flag : Nat := 0x00
  cartridge_type : Nat := 0x00
  rom_size : Nat := 0x00
  ram_size : Nat := 0x00
  destination_code : Nat := 0x00
  old_licensee_code : Nat := 0x00
  mask_rom_version : Nat := 0x00

/-- Python `title.upper().encode('ascii', errors='ignore')`: uppercase each
character and drop the non-ASCII ones. -/
def encodeTitleAscii (title : String) : List Nat :=
  ((title.data.map Char.toUpper).filter (fun c => c.toNat ≤ 127)).map Char.toNat

/-- Python slice assignment `l[start:start+data.length] = data` (within
bounds it replaces exactly that range). -/
def writeAt (l : List Nat) (start : Nat) (data : List Nat) : List Nat :=
  l.take start ++ data ++ l.drop (start + data.length)

/-- `for i in range(lo, lo+count): rom[i] = 0` (the title-area clear). -/
def clearRange (rom : List Nat) (lo count : Nat) : List Nat :=
  (List.range' lo count).foldl (fun r i => r.set i 0) rom

/-- `_write_header`: boot entry, logo, title (cleared then written), and the
single-byte classification fields. -/
def write_header (rom : List Nat) (header : RomHeader) : List Nat :=
  let rom := (((rom.set 0x0100 0x00).set 0x0101 0xC3).set 0x0102 0x50).set 0x0103 0x01
  let rom := writeAt rom 0x0104 nintendo_logo
  let title_bytes := (encodeTitleAscii header.title).take 16
  let rom := clearRange rom 0x0134 0x10
  let rom := writeAt rom 0x0134 title_bytes
  let rom := rom.set 0x0143 header.cgb_flag
  let rom := writeAt rom 0x0144 (header.new_licensee_code.take 2)
  let rom := rom.set 0x0146 header.sgb_flag
  let rom := rom.set 0x0147 header.cartridge_type
  let rom := rom.set 0x0148 header.rom_size
  let rom := rom.set 0x0149 header.ram_size
  let rom := rom.set 0x014A header.destination_code
  let rom := rom.set 0x014B header.old_licensee_code
  rom.set 0x014C header.mask_rom_version

/-- The header-checksum loop `x = x - rom[i] - 1` over `0x0134..=0x014C`
(a Python `int`, so it goes negative before the final `& 0xFF`). -/
def headerChecksumLoop (rom : List Nat) : Int :=
  (List.range' 0x0134 0x19).foldl (fun x i => x - (rom.getD i 0 : Int) - 1) 0

/-- The global-checksum loop: sum of `rom[i]` over every index except
`0x014E` and `0x014F`; `sumExcluding l i` sums `l` viewed as starting at
absolute index `i`. -/
def sumExcluding : List Nat → Nat → Nat
  | [], _ => 0
  | b :: rest, i =>
    (if i = 0x014E ∨ i = 0x014F then 0 else b) + sumExcluding rest (i + 1)

/-- `_write_checksums`: header checksum at `0x014D`, then the 16-bit global
checksum stored low byte at `0x014E`, high byte at `0x014F`. -/
def write_checksums (rom : List Nat) : List Nat :=
  let checksum := ((headerChecksumLoop rom) % 256).toNat
  let rom := rom.set 0x014D checksum
  let global_sum := (sumExcluding rom 0) % 65536
  (rom.set 0x014E (global_sum % 256)).set 0x014F ((global_sum / 256) % 256)

/-- `RomBuilder.build` on the driver's config: size the image, fill with
`0xFF`, write the interrupt vector, header, code at `CODE_START`, and the
checksums last. -/
def build (code : List Nat) (title : String) (cartridge_type rom_size : Nat) :
    List Nat :=
  let header : RomHeader :=
    { title := title, cartridge_type := cartridge_type, rom_size := rom_size }
  let romSizeTotal := max MIN_ROM_SIZE (round_up_to_power_of_2 (code.length + CODE_START))
  let rom := List.replicate romSizeTotal 0xFF
  let rom := (((rom.set 0x0000 0x00).set 0x0001 0xC3).set 0x0002 0x00).set 0x0003 0x01
  let rom := write_header rom header
  let rom := writeAt rom CODE_START code
  write_checksums rom


/-! ## Helper lemmas -/

/-- Unfolding `GBInstruction.encode`'s accumulator fold into a flat map. -/
theorem encode_foldl_eq (ops : List GBOperand) (acc : List Nat) :
    ops.foldl
      (fun result op =>
        match op with
        | .intOp v => if v ≤ 0xFF then result ++ [v] else result ++ [v % 256, (v / 256) % 256]
        | .bytesOp bs => result ++ bs)
      acc = acc ++ ops.flatMap operandBytes := by
  induction ops generalizing acc with
  | nil => simp
  | cons op rest ih =>
    cases op with
    | intOp v =>
      by_cases h : v ≤ 0xFF <;>
        simp [List.foldl_cons, ih, operandBytes, h, List.append_assoc]
    | bytesOp bs => simp [List.foldl_cons, ih, operandBytes, List.append_assoc]

/-! ## C10 -/

/-- **C10** — `GBInstruction.encode` emits the opcode byte followed, for each
integer operand, by one byte when the value is at most `0xFF` and two
little-endian bytes when it exceeds `0xFF` (bytes operands verbatim);
consequently an instruction of declared size 3 whose 16-bit operand is
passed as one integer `≤ 0xFF` encodes to `size - 1` bytes. -/
theorem encode_operand_widths (inst : GBInstruction) :
    inst.encode = inst.opcode :: inst.operands.flatMap operandBytes
    ∧ (∀ v : Nat, inst.operands = [.intOp v] → v ≤ 0xFF → inst.size = 3 →
        inst.encode.length = inst.size - 1) := by
  constructor
  · rw [GBInstruction.encode, encode_foldl_eq]
    rfl
  · intro v hops hv hsize
    rw [GBInstruction.encode, encode_foldl_eq, hops, hsize]
    simp [operandBytes, hv]

/-- Witness for C10 at `LD HL, d16` (table size 3) with the 16-bit operand
passed as the single integer 3. -/
theorem encode_operand_widths_witness :
    (GBInstruction.encode
        { opcode := 0x21, mnemonic := "LD HL, d16", operands := [.intOp 3],
          size := 3, cycles := 12 }).length = 3 - 1 :=
  (encode_operand_widths
      { opcode := 0x21, mnemonic := "LD HL, d16", operands := [.intOp 3],
        size := 3, cycles := 12 }).2 3 rfl (by decide) rfl

/-! ## C4 -/

/-- **C4** — refuted on the code: decoding the synthetic body
`ldc.i8 0x…01` (opcode `0x21` followed by its 8 operand bytes) does not
consume the 8 operand bytes the operand-shape table declares for `ldc.i8`;
the decoder emits `ldc.i8` with no operands and then misdecodes the operand
bytes as 8 further instructions, 9 in total instead of 1. -/
theorem ldc_i8_operand_bytes_not_consumed :
    decodeIl [0x21, 0x01, 0x00, 0x00, 0x00, 0x00, 0x00, 0x00, 0x00] =
      [⟨"ldc.i8", [], 0x21⟩, ⟨"break", [], 0x01⟩,
       ⟨"nop", [], 0x00⟩, ⟨"nop", [], 0x00⟩, ⟨"nop", [], 0x00⟩,
       ⟨"nop", [], 0x00⟩, ⟨"nop", [], 0x00⟩, ⟨"nop", [], 0x00⟩,
       ⟨"nop", [], 0x00⟩] := by
  rfl

/-! ## C3 -/

/-- **C3** — counterexample: the two-byte opcode `0xFE01` has no table
entry, yet the decoder names it `break` (the entry of its low byte), not
`unknown_fe01`, because the lookup masks the opcode to 8 bits. -/
theorem prefixed_opcode_misnamed :
    decodeIl [0xFE, 0x01] = [⟨"break", [], 0xFE01⟩]
    ∧ "break" ≠ unknownName 0xFE01 := by
  constructor
  · rfl
  · decide


/-- Operand reading never lengthens the remaining stream. -/
theorem readOperands_snd_length_le (name : String) (rest : List Nat) :
    (readOperands name rest).2.length ≤ rest.length := by
  unfold readOperands
  split
  · cases rest <;> simp
  · split
    · match rest with
      | [] => simp
      | [a] => simp
      | [a, b] => simp
      | [a, b, c] => simp
      | a :: b :: c :: d :: r => simp; omega
    · split
      · cases rest <;> simp
      · simp

/-- One decoding step on a non-prefix opcode byte. -/
theorem decodeAux_plain_byte (fuel b : Nat) (rest : List Nat) (h : ¬ b = 0xFE) :
    decodeAux (fuel + 1) (b :: rest) =
      ⟨opcodeLookup b, (readOperands (opcodeLookup b) rest).1, b⟩ ::
        decodeAux fuel (readOperands (opcodeLookup b) rest).2 := by
  simp [decodeAux, h]

/-- One decoding step on a `0xFE`-prefixed opcode. -/
theorem decodeAux_prefix_cons (fuel b2 : Nat) (rest2 : List Nat) :
    decodeAux (fuel + 1) (0xFE :: b2 :: rest2) =
      ⟨opcodeLookup (0xFE00 ||| b2),
        (readOperands (opcodeLookup (0xFE00 ||| b2)) rest2).1, 0xFE00 ||| b2⟩ ::
        decodeAux fuel (readOperands (opcodeLookup (0xFE00 ||| b2)) rest2).2 := by
  simp [decodeAux]

/-- Any fuel at least the stream length decodes identically. -/
theorem decodeAux_of_le (f1 : Nat) :
    ∀ (f2 : Nat) (l : List Nat), l.length ≤ f1 → l.length ≤ f2 →
      decodeAux f1 l = decodeAux f2 l := by
  induction f1 with
  | zero =>
    intro f2 l h1 _
    have : l = [] := List.eq_nil_of_length_eq_zero (Nat.le_zero.mp h1)
    subst this
    cases f2 <;> rfl
  | succ k ih =>
    intro f2 l h1 h2
    match l, f2 with
    | [], f2 => cases f2 <;> rfl
    | b :: rest, 0 => exact absurd h2 (by simp)
    | b :: rest, m + 1 =>
      simp only [List.length_cons, Nat.succ_le_succ_iff] at h1 h2
      by_cases hb : b = 0xFE
      · subst hb
        match rest with
        | [] => rfl
        | b2 :: rest2 =>
          rw [decodeAux_prefix_cons, decodeAux_prefix_cons]
          simp only [List.length_cons] at h1 h2
          congr 1
          exact ih m _
            (Nat.le_trans (readOperands_snd_length_le _ _) (by omega))
            (Nat.le_trans (readOperands_snd_length_le _ _) (by omega))
      · rw [decodeAux_plain_byte _ _ _ hb, decodeAux_plain_byte _ _ _ hb]
        congr 1
        exact ih m _
          (Nat.le_trans (readOperands_snd_length_le _ _) h1)
          (Nat.le_trans (readOperands_snd_length_le _ _) h2)

/-- The decoder's step equation on a `0xFE`-prefixed stream. -/
theorem decodeIl_prefix_cons (b2 : Nat) (rest2 : List Nat) :
    decodeIl (0xFE :: b2 :: rest2) =
      ⟨opcodeLookup (0xFE00 ||| b2),
        (readOperands (opcodeLookup (0xFE00 ||| b2)) rest2).1, 0xFE00 ||| b2⟩ ::
        decodeAux rest2.length (readOperands (opcodeLookup (0xFE00 ||| b2)) rest2).2 := by
  rw [decodeIl]
  simp only [List.length_cons]
  rw [decodeAux_prefix_cons]
  congr 1
  exact decodeAux_of_le _ _ _
    (Nat.le_trans (readOperands_snd_length_le _ _) (by omega))
    (readOperands_snd_length_le _ _)

/-- An `unknown_…` name starts with the letter `u`. -/
theorem unknownName_head (op : Nat) : (unknownName op).data.head? = some 'u' := by
  rw [unknownName, String.data_append]
  rfl

/-- An `unknown_…` name is not in a list of names none of which starts
with `u`. -/
theorem unknownName_not_mem (op : Nat) (names : List String)
    (h : (names.all fun t => t.data.head? != some 'u') = true) :
    unknownName op ∉ names := by
  intro hmem
  have h2 := List.all_eq_true.mp h _ hmem
  rw [bne_iff_ne] at h2
  exact h2 (unknownName_head op)

/-- An `unknown_…`-named opcode is in none of the operand groups, so it
consumes no operand bytes. -/
theorem readOperands_unknown (op : Nat) (rest : List Nat) :
    readOperands (unknownName op) rest = ([], rest) := by
  have h1 : unknownName op ∉ shortOperandNames := unknownName_not_mem op _ (by decide)
  have h2 : unknownName op ∉ intOperandNames := unknownName_not_mem op _ (by decide)
  have h3 : unknownName op ∉ branchOperandNames := unknownName_not_mem op _ (by decide)
  rw [readOperands.eq_def, if_neg h1, if_neg h2, if_neg h3]

/-- **C3** (amended) — reading `0xFE` reads a second byte `b` and forms the
16-bit opcode `0xFE00 ||| b`, but the table lookup keys on the low byte
only; when that low byte has no table entry the instruction is emitted with
canonical name `unknown_<hex>` of the full 16-bit opcode and no operands,
and decoding continues without error. -/
theorem prefixed_unknown_decode (b : Nat) (rest : List Nat) (hb : b < 256)
    (hmiss : msilOpcodeName b = none) :
    decodeIl (0xFE :: b :: rest) =
      ⟨unknownName (0xFE00 ||| b), [], 0xFE00 ||| b⟩ :: decodeIl rest := by
  have heq : (0xFE00 ||| b : Nat) = 0xFE00 + b := by
    have h256 : (0xFE00 : Nat) = 2 ^ 8 * 0xFE := by norm_num
    rw [h256, ← Nat.mul_add_lt_is_or (by norm_num at hb ⊢; omega) 0xFE]
  have hmod : (0xFE00 ||| b) % 256 = b := by omega
  have hname : opcodeLookup (0xFE00 ||| b) = unknownName (0xFE00 ||| b) := by
    rw [opcodeLookup, hmod, hmiss]
    rfl
  rw [decodeIl_prefix_cons, hname, readOperands_unknown]
  rfl

/-- Witness for C3 (amended) at the two-byte opcode `0xFE24`, whose low
byte `0x24` has no table entry. -/
theorem prefixed_unknown_decode_witness :
    decodeIl [0xFE, 0x24] = [⟨"unknown_fe24", [], 0xFE24⟩] := by
  rw [prefixed_unknown_decode 0x24 [] (by decide) (by decide)]
  rfl


/-! ## C5 -/

/-- **C5** — counterexample: a nonzero-RVA method whose body header byte has
low bits `0b00` (here `0x04`) makes `get_method_body` return `None`; no
`MalformedMethodBody` error exists anywhere in the reader. -/
theorem malformed_header_none : getMethodBody 1 0 [0x04] = none := by rfl

/-- **C5** (amended) — for a method with nonzero RVA whose body header
byte's low two bits are neither `0b10` nor `0b11`, `get_method_body` falls
through and returns `None` (indistinguishable from a missing body) instead
of raising an error. -/
theorem malformed_header_returns_none (rva off : Nat) (data : List Nat)
    (hrva : rva ≠ 0) (hoff : off < data.length)
    (h2 : data.getD off 0 % 4 ≠ 2) (h3 : data.getD off 0 % 4 ≠ 3) :
    getMethodBody rva off data = none := by
  have hgd : data.getD off 0 = data[off] := by
    rw [List.getD_eq_getElem?_getD, List.getElem?_eq_getElem hoff]
    rfl
  rw [hgd] at h2 h3
  rw [getMethodBody]
  simp [hrva, hoff, h2, h3]

/-- Witness for C5 (amended) at header byte `0x05` (low bits `0b01`). -/
theorem malformed_header_returns_none_witness : getMethodBody 7 0 [0x05] = none :=
  malformed_header_returns_none 7 0 [0x05] (by decide) (by decide) (by decide) (by decide)

/-! ## C6 -/

/-- **C6** — counterexample: a pending reference to the never-defined label
`target` is silently skipped by `resolve_labels`, which returns the buffer
unpatched instead of raising `UnresolvedLabel`. -/
theorem undefined_ref_no_error :
    EmitterState.resolve_labels ⟨[[0x00]], [], [("target", 0)]⟩ = .ok [0x00] := by rfl

/-- The patch loop ignores every reference whose label is undefined. -/
theorem patchRefs_all_undefined (labels : List (String × Nat)) :
    ∀ (refs : List (String × Nat)) (result : List Nat),
      (∀ r ∈ refs, lookupLabel labels r.1 = none) →
      patchRefs labels result refs = .ok result := by
  intro refs
  induction refs with
  | nil => intro result _; rfl
  | cons r rest ih =>
    intro result h
    obtain ⟨name, pos⟩ := r
    rw [patchRefs]
    rw [h ⟨name, pos⟩ (by simp)]
    exact ih result (fun x hx => h x (by simp [hx]))

/-- **C6** (amended) — finalization patches only the references whose
labels are defined; references to undefined labels are skipped without
error and their bytes stay unpatched (with only undefined references,
`resolve_labels` returns the flattened buffer unchanged). -/
theorem undefined_refs_skipped (st : EmitterState)
    (h : ∀ r ∈ st.label_refs, lookupLabel st.labels r.1 = none) :
    st.resolve_labels = .ok st.code.flatten := by
  rw [EmitterState.resolve_labels]
  exact patchRefs_all_undefined st.labels st.label_refs st.code.flatten h

/-- Witness for C6 (amended): one defined label `a`, one reference to the
undefined label `b`. -/
theorem undefined_refs_skipped_witness :
    EmitterState.resolve_labels ⟨[[1, 2]], [("a", 0)], [("b", 1)]⟩ = .ok [1, 2] := by
  have h := undefined_refs_skipped ⟨[[1, 2]], [("a", 0)], [("b", 1)]⟩ (by decide)
  simpa using h

/-! ## C7 -/

/-- **C7** — for a reference with a defined target, `resolve_labels` writes
the byte `(target - (pos + 1)) & 0xFF` at the patch position when the
displacement lies in `[-128, 127]`, and raises the out-of-range relocation
error otherwise. -/
theorem rel8_patch (chunks : List (List Nat)) (labels : List (String × Nat))
    (name : String) (pos target : Nat)
    (hlook : lookupLabel labels name = some target)
    (hpos : pos < chunks.flatten.length) :
    (((-128 : Int) ≤ (target : Int) - (pos + 1) ∧ (target : Int) - (pos + 1) ≤ 127) →
      EmitterState.resolve_labels ⟨chunks, labels, [(name, pos)]⟩ =
        .ok (chunks.flatten.set pos ((((target : Int) - (pos + 1)) % 256).toNat))) ∧
    (¬ ((-128 : Int) ≤ (target : Int) - (pos + 1) ∧ (target : Int) - (pos + 1) ≤ 127) →
      EmitterState.resolve_labels ⟨chunks, labels, [(name, pos)]⟩ =
        .error ("Label " ++ name ++ " too far for relative jump")) := by
  constructor
  · intro hrange
    rw [EmitterState.resolve_labels]
    rw [patchRefs, hlook]
    simp only [if_pos hrange, if_pos hpos]
    rfl
  · intro hrange
    rw [EmitterState.resolve_labels]
    rw [patchRefs, hlook]
    simp only [if_neg hrange]

/-- Witness for C7: an in-range forward reference is patched with its
displacement byte, and a target 300 bytes ahead raises the relocation
error. -/
theorem rel8_patch_witness :
    (EmitterState.resolve_labels ⟨[[0, 0, 0]], [("L", 2)], [("L", 0)]⟩ = .ok [1, 0, 0]) ∧
    (EmitterState.resolve_labels ⟨[[0, 0, 0]], [("M", 300)], [("M", 0)]⟩ =
      .error ("Label " ++ "M" ++ " too far for relative jump")) := by
  constructor
  · have h := (rel8_patch [[0, 0, 0]] [("L", 2)] "L" 0 2 (by decide) (by decide)).1
      (by decide)
    simpa using h
  · exact (rel8_patch [[0, 0, 0]] [("M", 300)] "M" 0 300 (by decide) (by decide)).2
      (by decide)


/-! ## C1 and C2 -/

/-- `_detect_hello_world` fires exactly when some method is an entry point
or is named `Main`. -/
theorem detect_hello_world_iff (ms : List (String × IrMethod)) :
    detect_hello_world ms = true ↔
      ∃ p ∈ ms, p.2.is_entry_point = true ∨ p.2.name = "Main" := by
  induction ms with
  | nil => simp [detect_hello_world]
  | cons p rest ih =>
    obtain ⟨n, m⟩ := p
    rw [detect_hello_world]
    by_cases hc : (m.is_entry_point || m.name == "Main") = true
    · rw [if_pos hc]
      simp only [ite_self]
      simp only [Bool.or_eq_true, beq_iff_eq] at hc
      constructor
      · intro _
        exact ⟨(n, m), List.mem_cons_self _ _, hc⟩
      · intro _
        trivial
    · rw [if_neg hc]
      rw [ih]
      simp only [Bool.or_eq_true, beq_iff_eq, not_or] at hc
      constructor
      · rintro ⟨q, hq, hcond⟩
        exact ⟨q, List.mem_cons_of_mem _ hq, hcond⟩
      · rintro ⟨q, hq, hcond⟩
        rcases List.mem_cons.mp hq with heq | hq2
        · subst heq
          rcases hcond with h | h
          · exact absurd h (by simpa using hc.1)
          · exact absurd h (by simpa using hc.2)
        · exact ⟨q, hq2, hcond⟩

/-- **C2** — for every IR module containing a method named `Main` or marked
as entry point, `generate` ignores the decoded instruction stream and
returns the one fixed pre-baked hello-world sequence; the generic
startup-plus-lowering path runs only when no such method exists. -/
theorem hello_fast_path (ir_module : IrModule) :
    ((∃ p ∈ ir_module.methods, p.2.is_entry_point = true ∨ p.2.name = "Main") →
       generate ir_module = .ok generate_hello_world) ∧
    ((¬ ∃ p ∈ ir_module.methods, p.2.is_entry_point = true ∨ p.2.name = "Main") →
       generate ir_module = generate_generic ir_module) := by
  constructor
  · intro h
    rw [generate, if_pos ((detect_hello_world_iff ir_module.methods).mpr h)]
  · intro h
    rw [generate,
      if_neg (fun hc => h ((detect_hello_world_iff ir_module.methods).mp hc))]

/-- Witness for C2: a module whose only method is named `Main` (not even
marked as entry point, empty body) already takes the fast path. -/
theorem hello_fast_path_witness :
    generate
      { name := "w"
        methods := [("Prog.Main",
          { name := "Main", full_name := "Prog.Main", basic_blocks := [] })]
        entry_point := none } = .ok generate_hello_world :=
  (hello_fast_path
      { name := "w"
        methods := [("Prog.Main",
          { name := "Main", full_name := "Prog.Main", basic_blocks := [] })]
        entry_point := none }).1
    ⟨("Prog.Main", { name := "Main", full_name := "Prog.Main", basic_blocks := [] }),
      List.mem_cons_self _ _, Or.inr rfl⟩

/-- **C1** — counterexample: the module whose `Main` decodes to
`ldc.i4.3; ret` takes the hello-world fast path, whose output does not
begin with the 4-byte startup `31 FE FF F3` the claim describes. -/
theorem main_ldc3_ret_takes_hello_path :
    (generate
      { name := "m"
        methods := [("Main",
          { name := "Main", full_name := "Main",
            basic_blocks := [{ label := "entry", instructions := decodeIl [0x19, 0x2A] }],
            is_entry_point := true })]
        entry_point := some "Main" } = .ok generate_hello_world) ∧
    generate_hello_world.take 4 ≠ [0x31, 0xFE, 0xFF, 0xF3] := by
  constructor
  · rfl
  · decide

/-- **C1** (amended) — the body `ldc.i4.3; ret` decodes to exactly two
instructions, and for a module whose only method is *not* named `Main` and
not an entry point the generic path emits the 4-byte startup
(`LD SP,0xFFFE; DI`), then the entry block: `LD HL,0x0003; PUSH HL; RET`,
plus the unconditional method-epilogue `RET`; a `Main` method with the same
body takes the hello-world fast path instead. -/
theorem non_main_ldc3_ret_lowering :
    decodeIl [0x19, 0x2A] = [⟨"ldc.i4.3", [], 0x19⟩, ⟨"ret", [], 0x2A⟩] ∧
    generate
      { name := "m"
        methods := [("Start",
          { name := "Start", full_name := "Start",
            basic_blocks := [{ label := "entry", instructions := decodeIl [0x19, 0x2A] }] })]
        entry_point := none } =
      .ok [0x31, 0xFE, 0xFF, 0xF3, 0x21, 0x03, 0x00, 0xE5, 0xC9, 0xC9] :=
  ⟨rfl, rfl⟩


/-! ## ROM builder lemmas, C8 and C9 -/

/-- Or-ing bits on never decreases a natural number. -/
theorem le_lor_left (a b : Nat) : a ≤ a ||| b :=
  Nat.le_of_testBit fun i h => by
    rw [Nat.testBit_or]
    simp [h]

/-- The or-shift smear only adds bits, so the result is at least the
input. -/
theorem round_up_ge (n : Nat) : n ≤ round_up_to_power_of_2 n := by
  rw [round_up_to_power_of_2]
  by_cases h : n = 0
  · simp [h]
  · rw [if_neg h]
    have step : ∀ a b k : Nat, a ≤ b → a ≤ b ||| (b >>> k) :=
      fun a b k hab => Nat.le_trans hab (le_lor_left _ _)
    exact Nat.le_trans (show n ≤ n - 1 + 1 by omega)
      (Nat.succ_le_succ
        (step _ _ 16 (step _ _ 8 (step _ _ 4 (step _ _ 2
          (step _ _ 1 (Nat.le_refl (n - 1))))))))

/-- Length of a slice write. -/
theorem writeAt_length_formula (l : List Nat) (start : Nat) (data : List Nat) :
    (writeAt l start data).length =
      min start l.length + data.length + (l.length - (start + data.length)) := by
  simp [writeAt]
  omega

/-- Setting elements in a fold preserves the length. -/
theorem foldl_set_length (idxs : List Nat) (l : List Nat) :
    (idxs.foldl (fun r i => r.set i 0) l).length = l.length := by
  induction idxs generalizing l with
  | nil => rfl
  | cons i rest ih => simp [List.foldl_cons, ih]

/-- `clearRange` preserves the length. -/
theorem clearRange_length (rom : List Nat) (lo count : Nat) :
    (clearRange rom lo count).length = rom.length := by
  rw [clearRange]
  exact foldl_set_length _ _

/-- The boot logo is 48 bytes. -/
theorem nintendo_logo_length : nintendo_logo.length = 48 := rfl

/-- Writing the header into a buffer that reaches `CODE_START` preserves
the length. -/
theorem write_header_length (rom : List Nat) (h : RomHeader)
    (hlen : 0x0150 ≤ rom.length) :
    (write_header rom h).length = rom.length := by
  rw [write_header]
  simp only [List.length_set, writeAt_length_formula, clearRange_length,
    List.length_take, nintendo_logo_length]
  omega

/-- The checksum pass preserves the length. -/
theorem write_checksums_length (rom : List Nat) :
    (write_checksums rom).length = rom.length := by
  rw [write_checksums]
  simp [List.length_set]

/-- The image's length is `max(32 KiB, round_up_to_power_of_2
(len(code) + CODE_START))` — exactly the source's size computation. -/
theorem build_length (code : List Nat) (title : String) (ct rs : Nat) :
    (build code title ct rs).length =
      max MIN_ROM_SIZE (round_up_to_power_of_2 (code.length + CODE_START)) := by
  rw [build]
  have hge : code.length + CODE_START ≤
      max MIN_ROM_SIZE (round_up_to_power_of_2 (code.length + CODE_START)) :=
    Nat.le_trans (round_up_ge _) (Nat.le_max_right _ _)
  have hmin : (0x0150 : Nat) ≤
      max MIN_ROM_SIZE (round_up_to_power_of_2 (code.length + CODE_START)) :=
    Nat.le_trans (by norm_num [MIN_ROM_SIZE]) (Nat.le_max_left _ _)
  rw [write_checksums_length, writeAt_length_formula, write_header_length]
  · simp only [List.length_set, List.length_replicate]
    simp only [CODE_START] at hge hmin ⊢
    omega
  · simp only [List.length_set, List.length_replicate]
    exact hmin

/-- **C8** — refuted on the code: at a code buffer of 8 589 934 257 zero
bytes (so `len(code) + CODE_START = 2^33 + 1`) the 32-bit or-shift smear in
`_round_up_to_power_of_2` overflows its coverage and the image length is
`2^34 - 3 = 17 179 869 181`, which is not a power of two at all — against
both the claim's formula (`2^34`) and the function's own docstring. -/
theorem image_size_not_power_of_two :
    (build (List.replicate 8589934257 0) "HELLO WORLD" 0 0).length = 17179869181 ∧
    ∀ k : Nat, 2 ^ k ≠ 17179869181 := by
  constructor
  · rw [build_length]
    simp only [List.length_replicate]
    decide
  · intro k
    match k with
    | 0 => decide
    | k + 1 =>
      intro hk
      have h2 : (2 ^ (k + 1)) % 2 = 0 := by
        rw [pow_succ]
        simp [Nat.mul_mod_left]
      rw [hk] at h2
      norm_num at h2

/-- Setting a byte at one of the two excluded offsets does not change the
excluded sum (`i` is the absolute index of the list's head). -/
theorem sumExcluding_set (l : List Nat) :
    ∀ (i j v : Nat), (i + j = 0x014E ∨ i + j = 0x014F) →
      sumExcluding (l.set j v) i = sumExcluding l i := by
  induction l with
  | nil => intro i j v _; rfl
  | cons b rest ih =>
    intro i j v hij
    match j with
    | 0 =>
      have hi : i = 0x014E ∨ i = 0x014F := by omega
      rw [List.set_cons_zero]
      rw [sumExcluding, sumExcluding, if_pos hi, if_pos hi]
    | j' + 1 =>
      rw [List.set_cons_succ]
      rw [sumExcluding, sumExcluding]
      rw [ih (i + 1) j' v (by omega)]

/-- After `_write_checksums`, the two global-checksum bytes store the
low-first 16-bit truncated sum of the final buffer's other bytes. -/
theorem write_checksums_global (rom : List Nat) (hlen : 0x0150 ≤ rom.length) :
    (write_checksums rom)[0x014E]? =
      some ((sumExcluding (write_checksums rom) 0) % 65536 % 256) ∧
    (write_checksums rom)[0x014F]? =
      some ((sumExcluding (write_checksums rom) 0) % 65536 / 256 % 256) := by
  rw [write_checksums]
  set r1 := rom.set 0x014D ((headerChecksumLoop rom % 256).toNat) with hr1
  set gs := sumExcluding r1 0 % 65536 with hgs
  have hsum : sumExcluding ((r1.set 0x014E (gs % 256)).set 0x014F (gs / 256 % 256)) 0
      = sumExcluding r1 0 := by
    rw [sumExcluding_set _ 0 0x014F _ (Or.inr rfl), sumExcluding_set _ 0 0x014E _ (Or.inl rfl)]
  have hlen1 : (0x014F : Nat) < r1.length := by
    rw [hr1]
    simp only [List.length_set]
    omega
  constructor
  · rw [hsum, ← hgs]
    rw [List.getElem?_set_ne (by decide)]
    rw [List.getElem?_set_self (by omega)]
  · rw [hsum, ← hgs]
    rw [List.getElem?_set_self (by simp only [List.length_set]; omega)]

/-- **C9** — in every produced image the global checksum equals the 16-bit
truncation of the sum of all image bytes except offsets `0x014E`/`0x014F`,
stored low byte first: `image[0x014E] = sum & 0xFF`,
`image[0x014F] = (sum >> 8) & 0xFF`. -/
theorem global_checksum_stored (code : List Nat) (title : String) (ct rs : Nat) :
    (build code title ct rs)[0x014E]? =
      some ((sumExcluding (build code title ct rs) 0) % 65536 % 256) ∧
    (build code title ct rs)[0x014F]? =
      some ((sumExcluding (build code title ct rs) 0) % 65536 / 256 % 256) := by
  have hb := build_length code title ct rs
  rw [build] at hb ⊢
  refine write_checksums_global _ ?_
  rw [write_checksums_length] at hb
  rw [hb]
  exact Nat.le_trans (by norm_num [MIN_ROM_SIZE]) (Nat.le_max_left _ _)

end MsilZ80
